import Mathlib

/-!
# Gait-pass backend: Journey & Fare Settlement Engine, shallow embedding

A shallow embedding of the gate-entry/exit core of the `gait-pass-backend`
repository, translated from the Python source:

* `app/models/fare.py`   — `Fare.calculate_fare`
* `app/models/wallet.py` — `Wallet.create_wallet_for_user`, `Wallet.add_transaction`,
  `Wallet.get_balance`, `Wallet.check_sufficient_balance`
* `app/models/journey.py` — `Journey.start_journey`, `Journey.complete_journey`,
  `Journey.get_ongoing_journey`, `Journey.get_user_journey_history`
* `app/models/station.py` — `Station.get_station_by_code`
* `app/routers/automated_journeys.py` — `automated_journey_entry`,
  `automated_journey_exit`, `emergency_exit_admin`

MongoDB collections become Lean lists of records; `find_one` becomes
`List.find?` (first match in natural order), `update_one` updates the first
matching record, `insert_one` appends.  Monetary amounts (Python floats) are
modelled as rationals; every concrete amount appearing below is exactly
representable as a binary float, so float arithmetic on them is exact and the
rational model is faithful.  Timestamps are natural numbers (seconds).
Sequential execution is modelled by explicit state passing; a raised
`ValueError` becomes `Except.error`.
-/

namespace GaitPass

/-- Monetary amounts (Python `float` in the source, modelled exactly). -/
abbrev Money := ℚ

/-- Journey status: `status ∈ {"ongoing", "completed", "emergency_cancelled"}`
in `journey.py`. -/
inductive JStatus
  | ongoing
  | completed
  | emergency_cancelled
deriving DecidableEq, Repr

/-- The fare-calculation dictionary returned by `Fare.calculate_fare`
(`fare.py` lines 121–128) and later enriched with `penalty_fare` by
`Journey.complete_journey`. -/
structure FareCalc where
  from_station : String
  to_station : String
  distance_km : ℚ
  base_fare : Money
  service_charge : Money
  total_fare : Money
  penalty_fare : Money := 0
deriving DecidableEq, Repr

/-- A document of the `fares` collection, as written by `Fare.create_fare`. -/
structure FareRule where
  from_station_code : String
  to_station_code : String
  distance_km : ℚ
  base_fare : Money
  is_active : Bool
deriving DecidableEq, Repr

/-- A document of the `journeys` collection (`journey.py` lines 31–54).
`journey_id` doubles as the unique Mongo `_id`. -/
structure JourneyRec where
  journey_id : Nat
  user_id : Nat
  entry_station_code : String
  entry_time : Nat
  exit_station_code : Option String
  exit_time : Option Nat
  journey_duration_minutes : Option Nat
  fare_details : Option FareCalc
  status : JStatus
  max_journey_time : Nat
  is_active : Bool
deriving DecidableEq, Repr

/-- Transaction direction (`"credit"` / `"debit"` in `wallet.py`). -/
inductive TxnType
  | credit
  | debit
deriving DecidableEq, Repr

/-- One entry of a wallet's `transactions` array (`wallet.py` lines 111–119). -/
structure Txn where
  ttype : TxnType
  amount : Money
deriving DecidableEq, Repr

/-- A document of the `wallets` collection (`wallet.py` lines 25–41). -/
structure WalletRec where
  user_id : Nat
  balance : Money
  status : String
  transactions : List Txn
  is_active : Bool
deriving DecidableEq, Repr

/-- A document of the `stations` collection (`station.py` lines 16–23). -/
structure StationRec where
  station_code : String
  station_name : String
  is_active : Bool
deriving DecidableEq, Repr

/-- Python `str.upper()` on station codes, written as a character map so
that it evaluates by kernel reduction (`String.toUpper` agrees with it on
every code appearing in the system). -/
def upperStr (s : String) : String := ⟨s.data.map Char.toUpper⟩

/-! ## Rounding

`fare.py` line 127 uses Python's built-in `round(total_fare, 2)`, which is
round-half-to-even (banker's rounding).  We also define round-half-up, the
rounding mode the specification asserts, for comparison. -/

/-- Round a rational to the nearest integer, ties to even (Python `round`). -/
def roundHalfEven (x : ℚ) : ℤ :=
  let f := ⌊x⌋
  let r := x - f
  if r < 1/2 then f
  else if 1/2 < r then f + 1
  else if f % 2 = 0 then f else f + 1

/-- Round a rational to the nearest integer, ties away from zero upward. -/
def roundHalfUp (x : ℚ) : ℤ := ⌊x + 1/2⌋

/-- Python `round(q, 2)` as the source performs it (half-to-even). -/
def round2 (q : ℚ) : ℚ := (roundHalfEven (q * 100) : ℚ) / 100

/-- Rounding to 2 decimals with the specification's round-half-up mode. -/
def roundHalfUp2 (q : ℚ) : ℚ := (roundHalfUp (q * 100) : ℚ) / 100

/-! ## Fare resolver (`fare.py`, `Fare.calculate_fare`) -/

/-- Model of `Fare.calculate_fare` (`fare.py` lines 95–132): look up the
(from, to) pair in stored direction, then the reversed pair; fail if neither
exists; total = base fare + fixed ₹5 service charge, rounded by Python
`round(·, 2)`.  There is no special branch for `from = to`. -/
def calculate_fare (fares : List FareRule) (from_station_code to_station_code : String) :
    Except String FareCalc :=
  let fwd := fares.find? fun f =>
    f.from_station_code == upperStr from_station_code &&
    f.to_station_code == upperStr to_station_code && f.is_active
  let rule := match fwd with
    | some f => some f
    | none => fares.find? fun f =>
        f.from_station_code == upperStr to_station_code &&
        f.to_station_code == upperStr from_station_code && f.is_active
  match rule with
  | none => .error ("No fare found for route " ++ from_station_code ++ " <-> " ++ to_station_code)
  | some f =>
      let base_fare := f.base_fare
      let service_charge : Money := 5
      let total_fare := base_fare + service_charge
      .ok { from_station := upperStr from_station_code
            to_station := upperStr to_station_code
            distance_km := f.distance_km
            base_fare := base_fare
            service_charge := service_charge
            total_fare := round2 total_fare
            penalty_fare := 0 }

/-! ## Wallet (`wallet.py`) -/

/-- Model of `Wallet.create_wallet_for_user` (`wallet.py` lines 16–55): return the
existing wallet if one exists for the user, otherwise insert a fresh wallet
with balance `0.0` and status `"inactive"`. -/
def create_wallet_for_user (ws : List WalletRec) (uid : Nat) :
    List WalletRec × WalletRec :=
  match ws.find? (fun w => w.user_id == uid) with
  | some w => (ws, w)
  | none =>
      let w : WalletRec :=
        { user_id := uid, balance := 0, status := "inactive",
          transactions := [], is_active := true }
      (ws ++ [w], w)

/-- Apply one transaction to a wallet document: `$inc` the balance by
`+amount` (credit) or `-amount` (debit) and `$push` the transaction record
(`wallet.py` lines 111–133). -/
def applyTxn (w : WalletRec) (t : TxnType) (amt : Money) : WalletRec :=
  let delta : Money := match t with
    | .credit => amt
    | .debit => -amt
  { w with balance := w.balance + delta,
           transactions := w.transactions ++ [⟨t, amt⟩] }

/-- Update the first list element satisfying `p` (Mongo `update_one`);
`none` when no document matches. -/
def updateFirst (p : α → Bool) (f : α → α) : List α → Option (List α)
  | [] => none
  | x :: xs =>
      if p x then some (f x :: xs)
      else (updateFirst p f xs).map (x :: ·)

/-- Model of `Wallet.add_transaction` (`wallet.py` lines 108–139): unconditionally
`update_one` the wallet matching `user_id`, incrementing the balance and
appending the transaction; returns `modified_count > 0`.  There is no
balance-sufficiency check in this function. -/
def add_transaction (ws : List WalletRec) (uid : Nat) (t : TxnType) (amt : Money) :
    List WalletRec × Bool :=
  match updateFirst (fun w => w.user_id == uid) (fun w => applyTxn w t amt) ws with
  | none => (ws, false)
  | some ws' => (ws', true)

/-- Model of `Wallet.get_balance` (`wallet.py` lines 141–156): `0.0` when no active
wallet document exists for the user. -/
def get_balance (ws : List WalletRec) (uid : Nat) : Money :=
  match ws.find? (fun w => w.user_id == uid && w.is_active) with
  | none => 0
  | some w => w.balance

/-- Model of `Wallet.check_sufficient_balance` (`wallet.py` lines 158–161). -/
def check_sufficient_balance (ws : List WalletRec) (uid : Nat) (amount : Money) : Bool :=
  decide (amount ≤ get_balance ws uid)

/-! ## Station directory (`station.py`) -/

/-- Model of `Station.get_station_by_code` (`station.py` lines 75–90). -/
def get_station_by_code (sts : List StationRec) (code : String) : Option StationRec :=
  sts.find? (fun s => s.station_code == upperStr code && s.is_active)

/-! ## Journey ledger (`journey.py`) -/

/-- The `find_one` filter shared by `start_journey`, `complete_journey` and
`get_ongoing_journey`: the user's ongoing, active journey. -/
def ongoingPred (uid : Nat) (j : JourneyRec) : Bool :=
  j.user_id == uid && j.status == JStatus.ongoing && j.is_active

/-- Model of `Journey.get_ongoing_journey` (`journey.py` lines 134–154). -/
def get_ongoing_journey (js : List JourneyRec) (uid : Nat) : Option JourneyRec :=
  js.find? (ongoingPred uid)

/-- Model of `Journey.start_journey` (`journey.py` lines 16–66): raise when the user
already has an ongoing journey, otherwise insert a new ongoing journey with
`max_journey_time = entry_time + 4 hours`.  `jid` models the generated
`journey_id` / Mongo `_id`. -/
def start_journey (js : List JourneyRec) (uid : Nat) (entry_station_code : String)
    (now : Nat) (jid : Nat) : Except String (List JourneyRec × JourneyRec) :=
  match get_ongoing_journey js uid with
  | some _ => .error "User has ongoing journey. Must exit first."
  | none =>
      let j : JourneyRec :=
        { journey_id := jid
          user_id := uid
          entry_station_code := upperStr entry_station_code
          entry_time := now
          exit_station_code := none
          exit_time := none
          journey_duration_minutes := none
          fare_details := none
          status := .ongoing
          max_journey_time := now + 4 * 3600
          is_active := true }
      .ok (js ++ [j], j)

/-- The late-exit penalty branch of `Journey.complete_journey`
(`journey.py` lines 84–88): when the exit time exceeds `max_journey_time`,
set `penalty_fare := 50.0` and add it to `total_fare`. -/
def applyPenalty (fc : FareCalc) (exit_time deadline : Nat) : FareCalc :=
  if deadline < exit_time then
    { fc with penalty_fare := 50, total_fare := fc.total_fare + 50 }
  else fc

/-- Model of `Journey.complete_journey` (`journey.py` lines 68–131): find the user's
ongoing journey (raise if none), apply the late-exit penalty to the fare
dictionary, and `update_one` the journey (matched by `_id`) to
`status = "completed"` with exit data and the fare breakdown. -/
def complete_journey (js : List JourneyRec) (uid : Nat) (exit_station_code : String)
    (fare_calculation : FareCalc) (now : Nat) :
    Except String (List JourneyRec × JourneyRec) :=
  match get_ongoing_journey js uid with
  | none => .error "No ongoing journey found for user"
  | some j =>
      let fc := applyPenalty fare_calculation now j.max_journey_time
      let j2 : JourneyRec :=
        { j with
          exit_station_code := some (upperStr exit_station_code)
          exit_time := some now
          journey_duration_minutes := some ((now - j.entry_time) / 60)
          fare_details := some fc
          status := .completed }
      .ok (js.map (fun x => if x.journey_id == j.journey_id then j2 else x), j2)

/-! ## Gate orchestrator (`routers/automated_journeys.py`)

The routers wrap every handler body in `try/except Exception`, turning any
raised `ValueError` into the generic `"System error"` denial; business
denials detected explicitly return their own message.  Gate decisions are
modelled by `GateResult`. -/

/-- A gate decision as returned by the entry/exit handlers: either a denial
with the handler's `message` string (`success=False`, `gate_open=False`),
or an allow decision. -/
inductive GateResult
  | deny (message : String)
  | allowEntry (journey_id : Nat)
  | allowExit (fare_deducted : Money) (journey : JourneyRec)
deriving DecidableEq, Repr

/-- The persistent state the gate handlers touch: the four collections. -/
structure SysState where
  stations : List StationRec
  fares : List FareRule
  journeys : List JourneyRec
  wallets : List WalletRec
deriving DecidableEq, Repr

/-- Model of `automated_journey_entry` (`automated_journeys.py` lines 18–56):
resolve the station, check `balance < 20`, then `start_journey`; the
`ValueError` raised by `start_journey` when a journey is already ongoing is
caught by the blanket `except Exception` and surfaces as the generic
`"System error"` denial. -/
def automated_journey_entry (st : SysState) (uid : Nat) (station_code : String)
    (now jid : Nat) : SysState × GateResult :=
  match get_station_by_code st.stations station_code with
  | none => (st, .deny "Invalid station")
  | some _ =>
      let balance := get_balance st.wallets uid
      if balance < 20 then (st, .deny "Insufficient balance")
      else
        match start_journey st.journeys uid station_code now jid with
        | .error _ => (st, .deny "System error")
        | .ok (js', j) => ({ st with journeys := js' }, .allowEntry j.journey_id)

/-- Model of `automated_journey_exit` (`automated_journeys.py` lines 60–116):
find the ongoing journey, resolve the exit station, price the trip, check
`balance < total_fare`, debit via `add_transaction` (its boolean result is
not examined), then `complete_journey`.  `total_fare` is read from the fare
dictionary before `complete_journey` adds any late-exit penalty, so the
debit uses the pre-penalty total. -/
def automated_journey_exit (st : SysState) (uid : Nat) (station_code : String)
    (now : Nat) : SysState × GateResult :=
  match get_ongoing_journey st.journeys uid with
  | none => (st, .deny "No journey ongoing")
  | some ongoing =>
      match get_station_by_code st.stations station_code with
      | none => (st, .deny "Invalid station")
      | some _ =>
          match calculate_fare st.fares ongoing.entry_station_code station_code with
          | .error _ => (st, .deny "System error")
          | .ok fare =>
              let total_fare := fare.total_fare
              let balance := get_balance st.wallets uid
              if balance < total_fare then (st, .deny "Low balance")
              else
                let ws' := (add_transaction st.wallets uid .debit total_fare).1
                match complete_journey st.journeys uid station_code fare now with
                | .error _ => ({ st with wallets := ws' }, .deny "System error")
                | .ok (js', completed) =>
                    ({ st with wallets := ws', journeys := js' },
                     .allowExit total_fare completed)

/-- Model of `emergency_exit_admin` (`automated_journeys.py` lines 241–257): find the
ongoing journey; if none, report failure; otherwise set its status to
`"emergency_cancelled"` (matched by `_id`).  No fare is computed or debited. -/
def emergency_exit_admin (js : List JourneyRec) (uid : Nat) :
    List JourneyRec × Bool :=
  match get_ongoing_journey js uid with
  | none => (js, false)
  | some j =>
      (js.map (fun x =>
        if x.journey_id == j.journey_id
        then { x with status := .emergency_cancelled } else x), true)

/-! ## Journey history (`journey.py`, `get_user_journey_history`) -/

/-- Sort key: `exit_time` (always set on completed journeys). -/
def exitKey (j : JourneyRec) : Nat := j.exit_time.getD 0

/-- Insert into a list sorted by `exitKey` descending. -/
def insertDesc (j : JourneyRec) : List JourneyRec → List JourneyRec
  | [] => [j]
  | x :: xs =>
      if exitKey x ≤ exitKey j then j :: x :: xs
      else x :: insertDesc j xs

/-- Sort by `exitKey` descending (models Mongo `.sort("exit_time", -1)`). -/
def sortByExitDesc : List JourneyRec → List JourneyRec
  | [] => []
  | x :: xs => insertDesc x (sortByExitDesc xs)

/-- The query filter of `get_user_journey_history`: the user's completed,
active journeys. -/
def historyPred (uid : Nat) (j : JourneyRec) : Bool :=
  j.user_id == uid && j.status == JStatus.completed && j.is_active

/-- Model of `Journey.get_user_journey_history` (`journey.py` lines 156–177): the
user's completed active journeys, sorted by `exit_time` descending, then
`.skip(skip).limit(limit)`. -/
def get_user_journey_history (js : List JourneyRec) (uid : Nat)
    (skip : Nat := 0) (limit : Nat := 50) : List JourneyRec :=
  ((sortByExitDesc (js.filter (historyPred uid))).drop skip).take limit

/-! ## Sequential reachability of the journey store

The three operations that mutate journey status, executed sequentially from
the empty store, each with the state updates their source performs (a raised
`ValueError` leaves the store unchanged, as nothing was written before the
raise). -/

/-- One journey-store operation: an entry tap, an exit tap, or an operator
emergency cancel. -/
inductive JOp
  | start (uid : Nat) (code : String) (now : Nat)
  | complete (uid : Nat) (code : String) (fc : FareCalc) (now : Nat)
  | cancel (uid : Nat)

/-- A fresh surrogate `_id`, modelling Mongo ObjectId uniqueness. -/
def freshId (js : List JourneyRec) : Nat :=
  (js.map (·.journey_id)).foldr max 0 + 1

/-- Apply one operation to the journey store; failed operations write
nothing. -/
def applyJOp (js : List JourneyRec) : JOp → List JourneyRec
  | .start uid code now =>
      match start_journey js uid code now (freshId js) with
      | .ok (js', _) => js'
      | .error _ => js
  | .complete uid code fc now =>
      match complete_journey js uid code fc now with
      | .ok (js', _) => js'
      | .error _ => js
  | .cancel uid => (emergency_exit_admin js uid).1

/-- Run a sequence of operations from a starting journey store. -/
def runJOps (js : List JourneyRec) (ops : List JOp) : List JourneyRec :=
  ops.foldl applyJOp js

/-- Number of ongoing, active journeys of a user — the quantity the
single-active-trip invariant bounds. -/
def ongoingCount (js : List JourneyRec) (uid : Nat) : Nat :=
  js.countP (ongoingPred uid)

/-! ## Helper lemmas -/

/-- A map that never turns the predicate from false to true cannot increase
the `countP`. -/
theorem countP_map_le_of_pred (js : List JourneyRec) (p : JourneyRec → Bool)
    (f : JourneyRec → JourneyRec) (h : ∀ x, p (f x) = true → p x = true) :
    (js.map f).countP p ≤ js.countP p := by
  rw [List.countP_map]
  exact List.countP_mono_left (fun x _ hx => h x hx)

/-- When `get_ongoing_journey` finds nothing, the user's ongoing count is 0. -/
theorem ongoingCount_eq_zero_of_none (js : List JourneyRec) (uid : Nat)
    (h : get_ongoing_journey js uid = none) : ongoingCount js uid = 0 := by
  rw [ongoingCount, List.countP_eq_zero]
  intro a ha
  exact List.find?_eq_none.mp h a ha

/-- One step of the journey state machine preserves the single-ongoing-trip
bound for every user. -/
theorem ongoingCount_applyJOp_le (js : List JourneyRec) (op : JOp) (uid : Nat)
    (h : ongoingCount js uid ≤ 1) : ongoingCount (applyJOp js op) uid ≤ 1 := by
  cases op with
  | start uid' code now =>
      rw [applyJOp, start_journey]
      cases hfind : get_ongoing_journey js uid' with
      | some j => exact h
      | none =>
          simp only
          rw [ongoingCount, List.countP_append]
          by_cases huid : uid' = uid
          · subst huid
            have h0 : ongoingCount js uid' = 0 := ongoingCount_eq_zero_of_none js uid' hfind
            rw [ongoingCount] at h0
            rw [h0]
            simpa using List.countP_le_length (l := [_]) (p := ongoingPred uid')
          · have hnew : ∀ j : JourneyRec, j.user_id = uid' →
                List.countP (ongoingPred uid) [j] = 0 := by
              intro j hj
              simp [List.countP_cons, ongoingPred, hj, huid]
            rw [hnew _ rfl]
            simpa using h
  | complete uid' code fc now =>
      rw [applyJOp, complete_journey]
      cases hfind : get_ongoing_journey js uid' with
      | none => exact h
      | some j =>
          simp only
          refine le_trans (countP_map_le_of_pred js (ongoingPred uid) _ ?_) h
          intro x hx
          by_cases hid : (x.journey_id == j.journey_id) = true
          · rw [if_pos hid] at hx
            simp [ongoingPred] at hx
          · rwa [if_neg hid] at hx
  | cancel uid' =>
      rw [applyJOp, emergency_exit_admin]
      cases hfind : get_ongoing_journey js uid' with
      | none => exact h
      | some j =>
          simp only
          refine le_trans (countP_map_le_of_pred js (ongoingPred uid) _ ?_) h
          intro x hx
          by_cases hid : (x.journey_id == j.journey_id) = true
          · rw [if_pos hid] at hx
            simp [ongoingPred] at hx
          · rwa [if_neg hid] at hx

/-- The bound is preserved along any sequence of operations. -/
theorem ongoingCount_runJOps_le (ops : List JOp) (js : List JourneyRec) (uid : Nat)
    (h : ongoingCount js uid ≤ 1) : ongoingCount (runJOps js ops) uid ≤ 1 := by
  induction ops generalizing js with
  | nil => exact h
  | cons op ops ih => exact ih (applyJOp js op) (ongoingCount_applyJOp_le js op uid h)

/-- A journey store with one ongoing journey for user 1, used as concrete
input by several witnesses. -/
def demoOngoing : JourneyRec :=
  { journey_id := 1, user_id := 1, entry_station_code := "A", entry_time := 0,
    exit_station_code := none, exit_time := none, journey_duration_minutes := none,
    fare_details := none, status := .ongoing, max_journey_time := 14400,
    is_active := true }

/-! ## C1 -/

/-- C1: for every rider and every journey store reachable by sequential
execution of `start_journey`, `complete_journey` and the emergency cancel,
at most one journey of that rider is ongoing; and `start_journey` invoked
while the rider already has an ongoing journey rejects with the
`ValueError` and inserts no second journey (the error branch returns no
updated store, so the store is untouched). -/
theorem C1_single_ongoing_invariant :
    (∀ ops uid, ongoingCount (runJOps [] ops) uid ≤ 1) ∧
    (∀ js uid j code now jid, get_ongoing_journey js uid = some j →
      start_journey js uid code now jid =
        .error "User has ongoing journey. Must exit first.") := by
  constructor
  · intro ops uid
    exact ongoingCount_runJOps_le ops [] uid (by simp [ongoingCount])
  · intro js uid j code now jid hfind
    rw [start_journey, hfind]

/-- Witness for C1 at a concrete double-tap run and a concrete occupied
store. -/
theorem C1_single_ongoing_invariant_witness :
    ongoingCount (runJOps [] [JOp.start 1 "A" 0, JOp.start 1 "B" 60]) 1 ≤ 1 ∧
    start_journey [demoOngoing] 1 "B" 60 2 =
      .error "User has ongoing journey. Must exit first." :=
  ⟨C1_single_ongoing_invariant.1 [JOp.start 1 "A" 0, JOp.start 1 "B" 60] 1,
   C1_single_ongoing_invariant.2 [demoOngoing] 1 demoOngoing "B" 60 2 (by decide)⟩

/-! ## C2 -/

/-- Updating the first match of a predicate, when the prefix has no match
and the pivot matches. -/
theorem updateFirst_append {α : Type} (p : α → Bool) (f : α → α)
    (ws₁ ws₂ : List α) (w : α)
    (h : ∀ x ∈ ws₁, p x = false) (hw : p w = true) :
    updateFirst p f (ws₁ ++ w :: ws₂) = some (ws₁ ++ f w :: ws₂) := by
  induction ws₁ with
  | nil => simp [updateFirst, hw]
  | cons x xs ih =>
      have hx := h x (List.mem_cons_self x xs)
      have ih' := ih (fun y hy => h y (List.mem_cons_of_mem x hy))
      simp [updateFirst, hx, ih', List.append_eq]

/-- C2 counterexample: `add_transaction` with type debit on a wallet whose
balance (10) is below the amount (35) does not fail: it succeeds, drives
the balance to −25 and appends the transaction, so a debit/credit sequence
from zero balance can go below zero. -/
theorem C2_counterexample :
    get_balance [⟨1, 10, "active", [], true⟩] 1 < 35 ∧
    add_transaction [⟨1, 10, "active", [], true⟩] 1 .debit 35 =
      ([⟨1, -25, "active", [⟨.debit, 35⟩], true⟩], true) ∧
    get_balance (add_transaction [⟨1, 10, "active", [], true⟩] 1 .debit 35).1 1 < 0 := by
  refine ⟨by decide, ?_, ?_⟩ <;>
    · simp [add_transaction, updateFirst, applyTxn, get_balance]
      norm_num

/-- C2 amended: `add_transaction` performs no sufficiency check.  Whenever a
wallet document exists for the rider, a debit of any amount succeeds
(returns `true`), decrements the balance by exactly the amount — below zero
when `balance < amount` — and appends the transaction; balance
non-negativity is enforced only by caller-side pre-checks such as the exit
handler's comparison, not inside the Ledger's debit. -/
theorem C2_debit_unconditional (ws₁ ws₂ : List WalletRec) (w : WalletRec)
    (uid : Nat) (amt : Money)
    (h : ∀ x ∈ ws₁, (x.user_id == uid) = false) (hw : w.user_id = uid) :
    add_transaction (ws₁ ++ w :: ws₂) uid .debit amt =
      (ws₁ ++ applyTxn w .debit amt :: ws₂, true) ∧
    (applyTxn w .debit amt).balance = w.balance - amt ∧
    (applyTxn w .debit amt).transactions = w.transactions ++ [⟨.debit, amt⟩] := by
  refine ⟨?_, ?_, rfl⟩
  · rw [add_transaction,
        updateFirst_append (fun w => w.user_id == uid) _ ws₁ ws₂ w h (by simp [hw])]
  · rw [applyTxn]
    simp only
    rw [sub_eq_add_neg]

/-- Witness for C2's amended theorem: wallet with balance 10, debit of 35
succeeds and leaves balance −25. -/
theorem C2_debit_unconditional_witness :
    add_transaction ([] ++ (⟨1, 10, "active", [], true⟩ : WalletRec) :: []) 1 .debit 35 =
      ([] ++ applyTxn ⟨1, 10, "active", [], true⟩ .debit 35 :: [], true) ∧
    (applyTxn (⟨1, 10, "active", [], true⟩ : WalletRec) .debit 35).balance = 10 - 35 ∧
    (applyTxn (⟨1, 10, "active", [], true⟩ : WalletRec) .debit 35).transactions =
      [] ++ [⟨.debit, 35⟩] :=
  C2_debit_unconditional [] [] ⟨1, 10, "active", [], true⟩ 1 35 (by simp) rfl

/-! ## C9 -/

/-- When the prefix of an append has no match, `find?` continues in the
suffix. -/
theorem find?_append_of_none {α : Type} (p : α → Bool) (l₁ l₂ : List α)
    (h : l₁.find? p = none) : (l₁ ++ l₂).find? p = l₂.find? p := by
  induction l₁ with
  | nil => rfl
  | cons x xs ih =>
      rw [List.find?_cons] at h
      rcases hx : p x with _ | _
      · rw [List.cons_append, List.find?_cons, hx]
        exact ih (by rwa [hx] at h)
      · rw [hx] at h
        exact absurd h (by simp)

/-- C9: `create_wallet_for_user` is idempotent: a second sequential call
returns exactly the first call's store and wallet (the existing wallet,
unchanged, with no error); and when no wallet existed, the created wallet
has zero balance and status `"inactive"`, is appended to the store, and the
user then owns exactly one wallet. -/
theorem C9_create_wallet_idempotent (ws : List WalletRec) (uid : Nat) :
    create_wallet_for_user (create_wallet_for_user ws uid).1 uid =
      create_wallet_for_user ws uid ∧
    (ws.countP (fun w => w.user_id == uid) = 0 →
      (create_wallet_for_user ws uid).2.balance = 0 ∧
      (create_wallet_for_user ws uid).2.status = "inactive" ∧
      (create_wallet_for_user ws uid).1 = ws ++ [(create_wallet_for_user ws uid).2] ∧
      (create_wallet_for_user ws uid).1.countP (fun w => w.user_id == uid) = 1 ∧
      (create_wallet_for_user
          (create_wallet_for_user ws uid).1 uid).1.countP
          (fun w => w.user_id == uid) = 1) := by
  have hkey : ∀ hnone : ws.find? (fun w => w.user_id == uid) = none,
      create_wallet_for_user ws uid =
        (ws ++ [⟨uid, 0, "inactive", [], true⟩], ⟨uid, 0, "inactive", [], true⟩) := by
    intro hnone
    rw [create_wallet_for_user, hnone]
  constructor
  · cases hfind : ws.find? (fun w => w.user_id == uid) with
    | some w =>
        have h1 : create_wallet_for_user ws uid = (ws, w) := by
          rw [create_wallet_for_user, hfind]
        rw [h1, create_wallet_for_user, hfind]
    | none =>
        rw [hkey hfind]
        rw [create_wallet_for_user,
            find?_append_of_none _ ws _ hfind]
        simp [List.find?_cons]
  · intro hcount
    have hnone : ws.find? (fun w => w.user_id == uid) = none := by
      rw [List.find?_eq_none]
      intro x hx
      exact List.countP_eq_zero.mp hcount x hx
    have h0 := hkey hnone
    rw [h0]
    refine ⟨rfl, rfl, rfl, ?_, ?_⟩
    · rw [List.countP_append, hcount]
      simp [List.countP_cons]
    · rw [create_wallet_for_user, find?_append_of_none _ ws _ hnone]
      simp only [List.find?_cons, beq_self_eq_true, cond_true]
      rw [List.countP_append, hcount]
      simp [List.countP_cons]

/-- Witness for C9 at the empty wallet store. -/
theorem C9_create_wallet_idempotent_witness :
    create_wallet_for_user (create_wallet_for_user [] 1).1 1 =
      create_wallet_for_user [] 1 ∧
    (create_wallet_for_user [] 1).2.balance = 0 ∧
    (create_wallet_for_user [] 1).2.status = "inactive" ∧
    (create_wallet_for_user [] 1).1 = [] ++ [(create_wallet_for_user [] 1).2] ∧
    (create_wallet_for_user [] 1).1.countP (fun w => w.user_id == 1) = 1 ∧
    (create_wallet_for_user
        (create_wallet_for_user [] 1).1 1).1.countP (fun w => w.user_id == 1) = 1 :=
  ⟨(C9_create_wallet_idempotent [] 1).1,
   (C9_create_wallet_idempotent [] 1).2 (by decide)⟩

/-! ## C10 -/

/-- Membership in `insertDesc`. -/
theorem mem_insertDesc (j a : JourneyRec) (l : List JourneyRec) :
    a ∈ insertDesc j l ↔ a = j ∨ a ∈ l := by
  induction l with
  | nil => simp [insertDesc]
  | cons x xs ih =>
      rw [insertDesc]
      by_cases hk : exitKey x ≤ exitKey j
      · simp [hk]
      · rw [if_neg hk]
        simp only [List.mem_cons, ih]
        tauto

/-- The descending sort permutes membership. -/
theorem mem_sortByExitDesc (a : JourneyRec) (l : List JourneyRec) :
    a ∈ sortByExitDesc l ↔ a ∈ l := by
  induction l with
  | nil => simp [sortByExitDesc]
  | cons x xs ih =>
      rw [sortByExitDesc, mem_insertDesc]
      simp [ih]

/-- Inserting keeps the list sorted by `exitKey` descending. -/
theorem pairwise_insertDesc (j : JourneyRec) (l : List JourneyRec)
    (h : l.Pairwise (fun a b => exitKey b ≤ exitKey a)) :
    (insertDesc j l).Pairwise (fun a b => exitKey b ≤ exitKey a) := by
  induction l with
  | nil => simp [insertDesc]
  | cons x xs ih =>
      rw [insertDesc]
      rcases List.pairwise_cons.mp h with ⟨hx, hxs⟩
      by_cases hk : exitKey x ≤ exitKey j
      · rw [if_pos hk]
        refine List.pairwise_cons.mpr ⟨?_, h⟩
        intro b hb
        rcases List.mem_cons.mp hb with rfl | hb
        · exact hk
        · exact le_trans (hx b hb) hk
      · rw [if_neg hk]
        refine List.pairwise_cons.mpr ⟨?_, ih hxs⟩
        intro b hb
        rcases (mem_insertDesc j b xs).mp hb with rfl | hb
        · omega
        · exact hx b hb

/-- The history sort is sorted by `exitKey` descending. -/
theorem pairwise_sortByExitDesc (l : List JourneyRec) :
    (sortByExitDesc l).Pairwise (fun a b => exitKey b ≤ exitKey a) := by
  induction l with
  | nil => simp [sortByExitDesc]
  | cons x xs ih => exact pairwise_insertDesc x _ ih

/-- C10: the journey-history read returns only the rider's completed,
active journeys — never ongoing or emergency-cancelled ones — ordered by
exit time descending, with at most `limit` entries, and pagination by
`skip`/`limit` agrees with dropping `skip` rows of the same query's first
`skip + limit` rows. -/
theorem C10_history_completed_sorted_paginated
    (js : List JourneyRec) (uid skip limit : Nat) :
    (∀ j ∈ get_user_journey_history js uid skip limit,
        j.user_id = uid ∧ j.status = JStatus.completed ∧
        j.status ≠ JStatus.ongoing ∧ j.status ≠ JStatus.emergency_cancelled ∧
        j.is_active = true ∧ j ∈ js) ∧
    (get_user_journey_history js uid skip limit).Pairwise
        (fun a b => exitKey b ≤ exitKey a) ∧
    (get_user_journey_history js uid skip limit).length ≤ limit ∧
    get_user_journey_history js uid skip limit =
      (get_user_journey_history js uid 0 (skip + limit)).drop skip := by
  refine ⟨?_, ?_, ?_, ?_⟩
  · intro j hj
    have hsub : List.Sublist
        ((sortByExitDesc (js.filter (historyPred uid))).drop skip)
        (sortByExitDesc (js.filter (historyPred uid))) :=
      List.drop_sublist skip _
    have hj₁ : j ∈ (sortByExitDesc (js.filter (historyPred uid))).drop skip :=
      (List.take_sublist limit _).subset hj
    have hj₂ : j ∈ sortByExitDesc (js.filter (historyPred uid)) :=
      hsub.subset hj₁
    have hj₃ : j ∈ js.filter (historyPred uid) :=
      (mem_sortByExitDesc j _).mp hj₂
    rcases List.mem_filter.mp hj₃ with ⟨hmem, hpred⟩
    rw [historyPred] at hpred
    simp only [Bool.and_eq_true, beq_iff_eq] at hpred
    refine ⟨hpred.1.1, hpred.1.2, ?_, ?_, hpred.2, hmem⟩
    · rw [hpred.1.2]; intro hc; cases hc
    · rw [hpred.1.2]; intro hc; cases hc
  · exact (pairwise_sortByExitDesc _).sublist
      ((List.take_sublist limit _).trans (List.drop_sublist skip _))
  · rw [get_user_journey_history, List.length_take]
    exact min_le_left _ _
  · rw [get_user_journey_history, get_user_journey_history, List.drop_zero,
        List.drop_take]
    congr 1
    omega

/-! ## Fare-resolver evaluation lemmas (shared by C5, C6, C8) -/

/-- Evaluation of `calculate_fare` when the forward lookup hits. -/
theorem calculate_fare_found (fares : List FareRule) (fromc toc : String) (f : FareRule)
    (h : fares.find? (fun g => g.from_station_code == upperStr fromc &&
          g.to_station_code == upperStr toc && g.is_active) = some f) :
    calculate_fare fares fromc toc = .ok
      { from_station := upperStr fromc, to_station := upperStr toc,
        distance_km := f.distance_km, base_fare := f.base_fare,
        service_charge := 5, total_fare := round2 (f.base_fare + 5),
        penalty_fare := 0 } := by
  rw [calculate_fare, h]

/-- Evaluation of `calculate_fare` when only the reversed lookup hits. -/
theorem calculate_fare_reversed (fares : List FareRule) (fromc toc : String) (f : FareRule)
    (hf : fares.find? (fun g => g.from_station_code == upperStr fromc &&
          g.to_station_code == upperStr toc && g.is_active) = none)
    (h : fares.find? (fun g => g.from_station_code == upperStr toc &&
          g.to_station_code == upperStr fromc && g.is_active) = some f) :
    calculate_fare fares fromc toc = .ok
      { from_station := upperStr fromc, to_station := upperStr toc,
        distance_km := f.distance_km, base_fare := f.base_fare,
        service_charge := 5, total_fare := round2 (f.base_fare + 5),
        penalty_fare := 0 } := by
  rw [calculate_fare, hf, h]

/-- Evaluation of `calculate_fare` when neither direction is stored. -/
theorem calculate_fare_notfound (fares : List FareRule) (fromc toc : String)
    (hf : fares.find? (fun g => g.from_station_code == upperStr fromc &&
          g.to_station_code == upperStr toc && g.is_active) = none)
    (hr : fares.find? (fun g => g.from_station_code == upperStr toc &&
          g.to_station_code == upperStr fromc && g.is_active) = none) :
    calculate_fare fares fromc toc =
      .error ("No fare found for route " ++ fromc ++ " <-> " ++ toc) := by
  rw [calculate_fare, hf, hr]

/-! ## C5 -/

/-- C5 counterexample: pricing a same-checkpoint trip (A, A) with no stored
rule fails with the NotFound `ValueError` rather than returning a fixed
minimum itinerary, and with a stored (A, A) rule the result follows the
stored base fare — two stores give two different totals, so there is no
fixed minimum independent of stored rules. -/
theorem C5_counterexample :
    calculate_fare [] "A" "A" = .error "No fare found for route A <-> A" ∧
    (calculate_fare [⟨"A", "A", 0, 10, true⟩] "A" "A").map FareCalc.total_fare =
      .ok 15 ∧
    (calculate_fare [⟨"A", "A", 0, 30, true⟩] "A" "A").map FareCalc.total_fare =
      .ok 35 ∧
    (15 : Money) ≠ 35 := by
  refine ⟨rfl, ?_, ?_, by norm_num⟩
  · rw [calculate_fare_found _ _ _ _ (List.find?_cons_of_pos _ (by decide))]
    simp only [Except.map]
    norm_num [round2, roundHalfEven]
  · rw [calculate_fare_found _ _ _ _ (List.find?_cons_of_pos _ (by decide))]
    simp only [Except.map]
    norm_num [round2, roundHalfEven]

/-- C5 amended: `calculate_fare(A, A)` treats the pair like any other pair:
if an active (A, A) rule is stored, it is priced from that rule's base fare
plus the service charge; otherwise the call fails with the NotFound error.
There is no same-station minimum itinerary. -/
theorem C5_same_station_uses_stored_rule (fares : List FareRule) (a : String) :
    (fares.find? (fun g => g.from_station_code == upperStr a &&
        g.to_station_code == upperStr a && g.is_active) = none →
      calculate_fare fares a a =
        .error ("No fare found for route " ++ a ++ " <-> " ++ a)) ∧
    (∀ f, fares.find? (fun g => g.from_station_code == upperStr a &&
        g.to_station_code == upperStr a && g.is_active) = some f →
      calculate_fare fares a a = .ok
        { from_station := upperStr a, to_station := upperStr a,
          distance_km := f.distance_km, base_fare := f.base_fare,
          service_charge := 5, total_fare := round2 (f.base_fare + 5),
          penalty_fare := 0 }) :=
  ⟨fun h => calculate_fare_notfound fares a a h h,
   fun f h => calculate_fare_found fares a a f h⟩

/-- Witness for C5's amended theorem at an empty store and at a store with
a stored (A, A) rule. -/
theorem C5_same_station_uses_stored_rule_witness :
    calculate_fare [] "A" "A" = .error ("No fare found for route " ++ "A" ++ " <-> " ++ "A") ∧
    calculate_fare [⟨"A", "A", 0, 10, true⟩] "A" "A" = .ok
      { from_station := upperStr "A", to_station := upperStr "A",
        distance_km := 0, base_fare := 10, service_charge := 5,
        total_fare := round2 ((10 : Money) + 5), penalty_fare := 0 } :=
  ⟨(C5_same_station_uses_stored_rule [] "A").1 rfl,
   (C5_same_station_uses_stored_rule [⟨"A", "A", 0, 10, true⟩] "A").2
     ⟨"A", "A", 0, 10, true⟩ (List.find?_cons_of_pos _ (by decide))⟩

/-! ## C6 -/

/-- C6 counterexample: when both directions are stored with different base
fares (10 for A→B, 20 for B→A), `calculate_fare` is not symmetric: pricing
(A, B) totals 15 while (B, A) totals 25. -/
theorem C6_counterexample :
    (calculate_fare [⟨"A", "B", 1, 10, true⟩, ⟨"B", "A", 1, 20, true⟩] "A" "B").map
        FareCalc.total_fare = .ok 15 ∧
    (calculate_fare [⟨"A", "B", 1, 10, true⟩, ⟨"B", "A", 1, 20, true⟩] "B" "A").map
        FareCalc.total_fare = .ok 25 ∧
    (15 : Money) ≠ 25 := by
  refine ⟨?_, ?_, by norm_num⟩
  · rw [calculate_fare_found _ _ _ _ (List.find?_cons_of_pos _ (by decide))]
    simp only [Except.map]
    norm_num [round2, roundHalfEven]
  · rw [calculate_fare_found _ _ _ ⟨"B", "A", 1, 20, true⟩ (by
      rw [List.find?_cons_of_neg _ (by decide)]
      exact List.find?_cons_of_pos _ (by decide))]
    simp only [Except.map]
    norm_num [round2, roundHalfEven]

/-- C6 amended: for a route stored in exactly one direction (no active rule
for the reversed pair), pricing is symmetric — both orders return the same
base fare, distance, service charge and total; and when neither direction
is stored, both orders fail with the NotFound error. -/
theorem C6_fare_symmetric_one_direction (fares : List FareRule) (a b : String)
    (hba : fares.find? (fun g => g.from_station_code == upperStr b &&
        g.to_station_code == upperStr a && g.is_active) = none) :
    (∀ r, fares.find? (fun g => g.from_station_code == upperStr a &&
        g.to_station_code == upperStr b && g.is_active) = some r →
      (calculate_fare fares a b).map FareCalc.base_fare =
        (calculate_fare fares b a).map FareCalc.base_fare ∧
      (calculate_fare fares a b).map FareCalc.distance_km =
        (calculate_fare fares b a).map FareCalc.distance_km ∧
      (calculate_fare fares a b).map FareCalc.service_charge =
        (calculate_fare fares b a).map FareCalc.service_charge ∧
      (calculate_fare fares a b).map FareCalc.total_fare =
        (calculate_fare fares b a).map FareCalc.total_fare ∧
      (calculate_fare fares a b).map FareCalc.total_fare =
        .ok (round2 (r.base_fare + 5))) ∧
    (fares.find? (fun g => g.from_station_code == upperStr a &&
        g.to_station_code == upperStr b && g.is_active) = none →
      calculate_fare fares a b =
        .error ("No fare found for route " ++ a ++ " <-> " ++ b) ∧
      calculate_fare fares b a =
        .error ("No fare found for route " ++ b ++ " <-> " ++ a)) := by
  constructor
  · intro r hab
    rw [calculate_fare_found fares a b r hab,
        calculate_fare_reversed fares b a r hba hab]
    exact ⟨rfl, rfl, rfl, rfl, rfl⟩
  · intro hab
    exact ⟨calculate_fare_notfound fares a b hab hba,
           calculate_fare_notfound fares b a hba hab⟩

/-- Witness for C6's amended theorem: a store holding only the A→B rule
prices both orders at total 15, and the empty store rejects both orders. -/
theorem C6_fare_symmetric_one_direction_witness :
    ((calculate_fare [⟨"A", "B", 1, 10, true⟩] "A" "B").map FareCalc.base_fare =
        (calculate_fare [⟨"A", "B", 1, 10, true⟩] "B" "A").map FareCalc.base_fare ∧
      (calculate_fare [⟨"A", "B", 1, 10, true⟩] "A" "B").map FareCalc.distance_km =
        (calculate_fare [⟨"A", "B", 1, 10, true⟩] "B" "A").map FareCalc.distance_km ∧
      (calculate_fare [⟨"A", "B", 1, 10, true⟩] "A" "B").map FareCalc.service_charge =
        (calculate_fare [⟨"A", "B", 1, 10, true⟩] "B" "A").map FareCalc.service_charge ∧
      (calculate_fare [⟨"A", "B", 1, 10, true⟩] "A" "B").map FareCalc.total_fare =
        (calculate_fare [⟨"A", "B", 1, 10, true⟩] "B" "A").map FareCalc.total_fare ∧
      (calculate_fare [⟨"A", "B", 1, 10, true⟩] "A" "B").map FareCalc.total_fare =
        .ok (round2 ((⟨"A", "B", 1, 10, true⟩ : FareRule).base_fare + 5))) ∧
    (calculate_fare [] "A" "B" =
        .error ("No fare found for route " ++ "A" ++ " <-> " ++ "B") ∧
      calculate_fare [] "B" "A" =
        .error ("No fare found for route " ++ "B" ++ " <-> " ++ "A")) :=
  ⟨(C6_fare_symmetric_one_direction [⟨"A", "B", 1, 10, true⟩] "A" "B"
      (List.find?_cons_of_neg _ (by decide))).1
    ⟨"A", "B", 1, 10, true⟩ (List.find?_cons_of_pos _ (by decide)),
   (C6_fare_symmetric_one_direction [] "A" "B" rfl).2 rfl⟩

/-! ## C8 -/

/-- C8 counterexample: for a base fare of 10.125 (= 81/8, exactly
representable as a float) the code's `round(total, 2)` is half-to-even:
the total 15.125 rounds to 15.12 (= 378/25), while round-half-up would
give 15.13 (= 1513/100). -/
theorem C8_counterexample :
    (calculate_fare [⟨"A", "B", 1, 81/8, true⟩] "A" "B").map FareCalc.total_fare =
      .ok (378/25) ∧
    roundHalfUp2 (81/8 + 5) = 1513/100 ∧
    (378/25 : Money) ≠ 1513/100 := by
  refine ⟨?_, ?_, by norm_num⟩
  · rw [calculate_fare_found _ _ _ _ (List.find?_cons_of_pos _ (by decide))]
    simp only [Except.map]
    norm_num [round2, roundHalfEven]
  · norm_num [roundHalfUp2, roundHalfUp]

/-- C8 amended: every successful pricing has a flat service charge of 5.00
(not a percentage), total = base fare + 5 rounded to 2 decimal places —
but with Python's round-half-to-even, not round-half-up. -/
theorem C8_total_base_plus_flat_charge (fares : List FareRule) (a b : String)
    (fc : FareCalc) (h : calculate_fare fares a b = .ok fc) :
    fc.service_charge = 5 ∧ fc.total_fare = round2 (fc.base_fare + 5) ∧
    fc.penalty_fare = 0 := by
  rw [calculate_fare] at h
  rcases hf : fares.find? (fun g => g.from_station_code == upperStr a &&
      g.to_station_code == upperStr b && g.is_active) with _ | r
  · rcases hr : fares.find? (fun g => g.from_station_code == upperStr b &&
        g.to_station_code == upperStr a && g.is_active) with _ | r
    · rw [hf, hr] at h
      exact absurd h (by simp)
    · rw [hf, hr] at h
      simp only [Except.ok.injEq] at h
      rw [← h]
      exact ⟨rfl, rfl, rfl⟩
  · rw [hf] at h
    simp only [Except.ok.injEq] at h
    rw [← h]
    exact ⟨rfl, rfl, rfl⟩

/-- The priced itinerary for the demo A→B route with base fare 30. -/
def demoPricedAB : FareCalc :=
  { from_station := upperStr "A", to_station := upperStr "B",
    distance_km := 1, base_fare := 30, service_charge := 5,
    total_fare := round2 ((30 : Money) + 5), penalty_fare := 0 }

/-- Witness for C8's amended theorem at a concrete configured route. -/
theorem C8_total_base_plus_flat_charge_witness :
    demoPricedAB.service_charge = 5 ∧
    demoPricedAB.total_fare = round2 (demoPricedAB.base_fare + 5) ∧
    demoPricedAB.penalty_fare = 0 :=
  C8_total_base_plus_flat_charge [⟨"A", "B", 1, 30, true⟩] "A" "B" demoPricedAB
    (calculate_fare_found _ _ _ _ (List.find?_cons_of_pos _ (by decide)))

/-! ## Concrete gate scenarios (shared by C3, C4, C7) -/

/-- Station A of the demo network. -/
def demoStationA : StationRec := ⟨"A", "Station A", true⟩

/-- Station B of the demo network. -/
def demoStationB : StationRec := ⟨"B", "Station B", true⟩

/-- A wallet for user 1 holding 100. -/
def demoWalletRich : WalletRec := ⟨1, 100, "active", [], true⟩

/-- A wallet for user 1 holding only 10. -/
def demoWalletPoor : WalletRec := ⟨1, 10, "active", [], true⟩

/-- Demo state: user 1 entered at A (deadline 14400) and holds 100; the
A→B route is configured with base fare 30. -/
def demoStLate : SysState :=
  { stations := [demoStationB], fares := [⟨"A", "B", 12, 30, true⟩],
    journeys := [demoOngoing], wallets := [demoWalletRich] }

/-- The itinerary `calculate_fare` produces for the demo A→B route. -/
def demoPricedLate : FareCalc :=
  { from_station := upperStr "A", to_station := upperStr "B",
    distance_km := 12, base_fare := 30, service_charge := 5,
    total_fare := round2 ((30 : Money) + 5), penalty_fare := 0 }

/-- The demo A→B total evaluates to 35. -/
theorem demoPricedLate_total : demoPricedLate.total_fare = 35 := by
  norm_num [demoPricedLate, round2, roundHalfEven]

/-- The journey record `complete_journey` writes on a late exit (penalty
branch taken). -/
def completedWithPenalty (oj : JourneyRec) (code : String) (fc : FareCalc)
    (now : Nat) : JourneyRec :=
  { oj with
    exit_station_code := some (upperStr code)
    exit_time := some now
    journey_duration_minutes := some ((now - oj.entry_time) / 60)
    fare_details := some { fc with penalty_fare := 50, total_fare := fc.total_fare + 50 }
    status := .completed }

/-- The journey record `complete_journey` writes on an in-time exit. -/
def completedNoPenalty (oj : JourneyRec) (code : String) (fc : FareCalc)
    (now : Nat) : JourneyRec :=
  { oj with
    exit_station_code := some (upperStr code)
    exit_time := some now
    journey_duration_minutes := some ((now - oj.entry_time) / 60)
    fare_details := some fc
    status := .completed }


/-! ## C3 -/

/-- Evaluation of `complete_journey` on a late exit (deadline exceeded). -/
theorem complete_journey_eval_late (js : List JourneyRec) (uid : Nat)
    (code : String) (fc : FareCalc) (now : Nat) (oj : JourneyRec)
    (h1 : get_ongoing_journey js uid = some oj)
    (h5 : oj.max_journey_time < now) :
    complete_journey js uid code fc now =
      .ok (js.map (fun x => if x.journey_id == oj.journey_id
            then completedWithPenalty oj code fc now else x),
           completedWithPenalty oj code fc now) := by
  rw [complete_journey, h1]
  simp only [applyPenalty, if_pos h5, completedWithPenalty]

/-- Evaluation of `complete_journey` on an in-time exit. -/
theorem complete_journey_eval_ontime (js : List JourneyRec) (uid : Nat)
    (code : String) (fc : FareCalc) (now : Nat) (oj : JourneyRec)
    (h1 : get_ongoing_journey js uid = some oj)
    (h5 : ¬ oj.max_journey_time < now) :
    complete_journey js uid code fc now =
      .ok (js.map (fun x => if x.journey_id == oj.journey_id
            then completedNoPenalty oj code fc now else x),
           completedNoPenalty oj code fc now) := by
  rw [complete_journey, h1]
  simp only [applyPenalty, if_neg h5, completedNoPenalty]

/-- Evaluation of the exit handler when every step succeeds: the wallet is
debited `fc.total_fare` — the total as priced, before `complete_journey`
touches it — and the journey store is replaced by `complete_journey`'s
result. -/
theorem automated_journey_exit_eval (st : SysState) (uid : Nat) (code : String)
    (now : Nat) (oj : JourneyRec) (s : StationRec) (fc : FareCalc)
    (js' : List JourneyRec) (cj : JourneyRec)
    (h1 : get_ongoing_journey st.journeys uid = some oj)
    (h2 : get_station_by_code st.stations code = some s)
    (h3 : calculate_fare st.fares oj.entry_station_code code = .ok fc)
    (h4 : ¬ get_balance st.wallets uid < fc.total_fare)
    (h5 : complete_journey st.journeys uid code fc now = .ok (js', cj)) :
    automated_journey_exit st uid code now =
      ({ st with wallets := (add_transaction st.wallets uid .debit fc.total_fare).1,
                 journeys := js' },
       .allowExit fc.total_fare cj) := by
  simp only [automated_journey_exit, h1, h2, h3, if_neg h4, h5]

/-- C3 amended: on a late exit (now past the journey's 4-hour deadline) the
fixed 50.00 penalty is added to the itinerary total inside
`complete_journey` and is recorded as a distinct `penalty_fare` field with
`base_fare` untouched — but this happens after the wallet debit: the exit
flow debits the pre-penalty `total_fare`, so the amount handed to the
Ledger excludes the penalty (it equals the recorded total minus 50). -/
theorem C3_penalty_recorded_not_debited (st : SysState) (uid : Nat)
    (code : String) (now : Nat) (oj : JourneyRec) (s : StationRec) (fc : FareCalc)
    (h1 : get_ongoing_journey st.journeys uid = some oj)
    (h2 : get_station_by_code st.stations code = some s)
    (h3 : calculate_fare st.fares oj.entry_station_code code = .ok fc)
    (h4 : ¬ get_balance st.wallets uid < fc.total_fare)
    (h5 : oj.max_journey_time < now) :
    automated_journey_exit st uid code now =
      ({ st with
          wallets := (add_transaction st.wallets uid .debit fc.total_fare).1,
          journeys := st.journeys.map (fun x =>
            if x.journey_id == oj.journey_id
            then completedWithPenalty oj code fc now else x) },
       .allowExit fc.total_fare (completedWithPenalty oj code fc now)) ∧
    (completedWithPenalty oj code fc now).fare_details =
      some { fc with penalty_fare := 50, total_fare := fc.total_fare + 50 } ∧
    fc.total_fare ≠ fc.total_fare + 50 := by
  refine ⟨?_, rfl, by intro hq; linarith⟩
  exact automated_journey_exit_eval st uid code now oj s fc _ _ h1 h2 h3 h4
    (complete_journey_eval_late st.journeys uid code fc now oj h1 h5)

/-- Witness for C3's amended theorem: the demo late exit at time 20000. -/
theorem C3_penalty_recorded_not_debited_witness :
    automated_journey_exit demoStLate 1 "B" 20000 =
      ({ demoStLate with
          wallets := (add_transaction demoStLate.wallets 1 .debit
            demoPricedLate.total_fare).1,
          journeys := demoStLate.journeys.map (fun x =>
            if x.journey_id == demoOngoing.journey_id
            then completedWithPenalty demoOngoing "B" demoPricedLate 20000 else x) },
       .allowExit demoPricedLate.total_fare
         (completedWithPenalty demoOngoing "B" demoPricedLate 20000)) ∧
    (completedWithPenalty demoOngoing "B" demoPricedLate 20000).fare_details =
      some { demoPricedLate with penalty_fare := 50, total_fare := demoPricedLate.total_fare + 50 } ∧
    demoPricedLate.total_fare ≠ demoPricedLate.total_fare + 50 :=
  C3_penalty_recorded_not_debited demoStLate 1 "B" 20000 demoOngoing demoStationB
    demoPricedLate (by decide) (by decide)
    (calculate_fare_found _ _ _ ⟨"A", "B", 12, 30, true⟩
      (List.find?_cons_of_pos _ (by decide)))
    (by rw [demoPricedLate_total]; decide) (by decide)

/-- C3 counterexample: in the demo late exit the wallet is debited 35 — the
pre-penalty total, leaving balance 65 — while the stored fare breakdown
records `total_fare = 85` with `penalty_fare = 50`; the amount actually
debited (100 − 65 = 35) differs from the recorded total of 85, so the
debited amount does not include the penalty. -/
theorem C3_counterexample :
    (automated_journey_exit demoStLate 1 "B" 20000).2 =
      .allowExit demoPricedLate.total_fare
        (completedWithPenalty demoOngoing "B" demoPricedLate 20000) ∧
    demoPricedLate.total_fare = 35 ∧
    get_balance (automated_journey_exit demoStLate 1 "B" 20000).1.wallets 1 = 65 ∧
    (completedWithPenalty demoOngoing "B" demoPricedLate 20000).fare_details.map
        FareCalc.total_fare = some 85 ∧
    (completedWithPenalty demoOngoing "B" demoPricedLate 20000).fare_details.map
        FareCalc.penalty_fare = some 50 ∧
    (completedWithPenalty demoOngoing "B" demoPricedLate 20000).fare_details.map
        FareCalc.base_fare = some 30 ∧
    (100 : Money) - 65 ≠ 85 := by
  have hfc : calculate_fare demoStLate.fares demoOngoing.entry_station_code "B" =
      .ok demoPricedLate :=
    calculate_fare_found _ _ _ ⟨"A", "B", 12, 30, true⟩
      (List.find?_cons_of_pos _ (by decide))
  have hexit := automated_journey_exit_eval demoStLate 1 "B" 20000 demoOngoing
    demoStationB demoPricedLate _ _ (by decide) (by decide) hfc
    (by rw [demoPricedLate_total]; decide)
    (complete_journey_eval_late demoStLate.journeys 1 "B" demoPricedLate 20000
      demoOngoing (by decide) (by decide))
  refine ⟨by rw [hexit], demoPricedLate_total, ?_, ?_, rfl, rfl, by norm_num⟩
  · rw [hexit, demoPricedLate_total]
    simp only [demoStLate, demoWalletRich]
    simp [add_transaction, updateFirst, applyTxn, get_balance]
    norm_num
  · simp only [completedWithPenalty, Option.map]
    rw [demoPricedLate_total]
    norm_num

/-! ## C4 -/

/-- C4 amended: an exit whose rider balance is below the priced total is
denied with the low-balance message, leaving the whole state — the ongoing
journey, the wallet balance and the transaction log — untouched.  The
second half of the original claim does not hold: the handler ignores
`add_transaction`'s boolean result, so a debit that fails does not prevent
`complete_journey` from marking the journey completed (see the
counterexample). -/
theorem C4_insufficient_balance_denies (st : SysState) (uid : Nat)
    (code : String) (now : Nat) (oj : JourneyRec) (s : StationRec) (fc : FareCalc)
    (h1 : get_ongoing_journey st.journeys uid = some oj)
    (h2 : get_station_by_code st.stations code = some s)
    (h3 : calculate_fare st.fares oj.entry_station_code code = .ok fc)
    (h4 : get_balance st.wallets uid < fc.total_fare) :
    automated_journey_exit st uid code now = (st, .deny "Low balance") := by
  simp only [automated_journey_exit, h1, h2, h3, if_pos h4]

/-- Demo state for the denied exit: user 1 holds only 10 against a priced
total of 35. -/
def demoStPoor : SysState :=
  { stations := [demoStationB], fares := [⟨"A", "B", 12, 30, true⟩],
    journeys := [demoOngoing], wallets := [demoWalletPoor] }

/-- Witness for C4's amended theorem: balance 10 against a priced total of
35 denies the exit and leaves the state unchanged. -/
theorem C4_insufficient_balance_denies_witness :
    automated_journey_exit demoStPoor 1 "B" 100 = (demoStPoor, .deny "Low balance") :=
  C4_insufficient_balance_denies demoStPoor 1 "B" 100 demoOngoing demoStationB
    demoPricedLate (by decide) (by decide)
    (calculate_fare_found _ _ _ ⟨"A", "B", 12, 30, true⟩
      (List.find?_cons_of_pos _ (by decide)))
    (by rw [demoPricedLate_total]; decide)

/-- Demo state for a failing debit: no wallet document exists for user 1,
and the operator configured a negative base fare (−5), which `create_fare`
accepts unvalidated, giving a priced total of 0. -/
def demoStNoWallet : SysState :=
  { stations := [demoStationB], fares := [⟨"A", "B", 1, -5, true⟩],
    journeys := [demoOngoing], wallets := [] }

/-- The itinerary `calculate_fare` produces for the negative-base route. -/
def demoPricedNeg : FareCalc :=
  { from_station := upperStr "A", to_station := upperStr "B",
    distance_km := 1, base_fare := -5, service_charge := 5,
    total_fare := round2 ((-5 : Money) + 5), penalty_fare := 0 }

/-- The negative-base demo total evaluates to 0. -/
theorem demoPricedNeg_total : demoPricedNeg.total_fare = 0 := by
  norm_num [demoPricedNeg, round2, roundHalfEven]

/-- C4 counterexample: in `demoStNoWallet` the exit's debit fails
(`add_transaction` matches no wallet document and returns `false`), yet the
handler ignores that result: `complete_journey` still marks the journey
completed and the gate opens. -/
theorem C4_counterexample :
    (add_transaction demoStNoWallet.wallets 1 .debit demoPricedNeg.total_fare).2 =
      false ∧
    (automated_journey_exit demoStNoWallet 1 "B" 100).1.journeys.map
        JourneyRec.status = [JStatus.completed] ∧
    (automated_journey_exit demoStNoWallet 1 "B" 100).1.wallets = [] ∧
    (automated_journey_exit demoStNoWallet 1 "B" 100).2 =
      .allowExit demoPricedNeg.total_fare
        (completedNoPenalty demoOngoing "B" demoPricedNeg 100) := by
  have hfc : calculate_fare demoStNoWallet.fares demoOngoing.entry_station_code "B" =
      .ok demoPricedNeg :=
    calculate_fare_found _ _ _ ⟨"A", "B", 1, -5, true⟩
      (List.find?_cons_of_pos _ (by decide))
  have hexit := automated_journey_exit_eval demoStNoWallet 1 "B" 100 demoOngoing
    demoStationB demoPricedNeg _ _ (by decide) (by decide) hfc
    (by rw [demoPricedNeg_total]; decide)
    (complete_journey_eval_ontime demoStNoWallet.journeys 1 "B" demoPricedNeg 100
      demoOngoing (by decide) (by decide))
  refine ⟨rfl, ?_, ?_, ?_⟩
  · rw [hexit]; rfl
  · rw [hexit]; rfl
  · rw [hexit]

/-! ## C7 -/

/-- C7 amended: an entry tap by a rider with an ongoing journey is denied
and the state — including the existing journey — is unchanged and the gate
stays closed; but when the station is valid and the balance floor is met,
the denial carries the blanket `"System error"` message produced by the
handler's catch-all `except` — not a structured AlreadyOngoing reason, and
the existing trip's origin is not surfaced. -/
theorem C7_entry_with_ongoing_denied_generically (st : SysState) (uid : Nat)
    (code : String) (now jid : Nat) (oj : JourneyRec)
    (h1 : get_ongoing_journey st.journeys uid = some oj) :
    ((automated_journey_entry st uid code now jid).1 = st ∧
     ∀ j, (automated_journey_entry st uid code now jid).2 ≠ .allowEntry j) ∧
    (∀ s, get_station_by_code st.stations code = some s →
      ¬ get_balance st.wallets uid < 20 →
      automated_journey_entry st uid code now jid = (st, .deny "System error")) := by
  have hstart : start_journey st.journeys uid code now jid =
      .error "User has ongoing journey. Must exit first." := by
    rw [start_journey, h1]
  constructor
  · cases hs : get_station_by_code st.stations code with
    | none =>
        have he : automated_journey_entry st uid code now jid =
            (st, .deny "Invalid station") := by
          rw [automated_journey_entry, hs]
        rw [he]
        exact ⟨rfl, fun j h => by simp at h⟩
    | some s =>
        by_cases hbal : get_balance st.wallets uid < 20
        · have he : automated_journey_entry st uid code now jid =
              (st, .deny "Insufficient balance") := by
            rw [automated_journey_entry, hs]
            simp only [if_pos hbal]
          rw [he]
          exact ⟨rfl, fun j h => by simp at h⟩
        · have he : automated_journey_entry st uid code now jid =
              (st, .deny "System error") := by
            rw [automated_journey_entry, hs]
            simp only [if_neg hbal, hstart]
          rw [he]
          exact ⟨rfl, fun j h => by simp at h⟩
  · intro s hs hbal
    rw [automated_journey_entry, hs]
    simp only [if_neg hbal, hstart]

/-- Demo entry state: user 1 has an ongoing journey from A, station A is
valid and the balance floor is met. -/
def demoStEntry : SysState :=
  { stations := [demoStationA], fares := [], journeys := [demoOngoing],
    wallets := [demoWalletRich] }

/-- Witness for C7's amended theorem at the demo entry state. -/
theorem C7_entry_with_ongoing_denied_generically_witness :
    (automated_journey_entry demoStEntry 1 "A" 50 2).1 = demoStEntry ∧
    automated_journey_entry demoStEntry 1 "A" 50 2 =
      (demoStEntry, .deny "System error") :=
  ⟨((C7_entry_with_ongoing_denied_generically demoStEntry 1 "A" 50 2 demoOngoing
      (by decide)).1).1,
   (C7_entry_with_ongoing_denied_generically demoStEntry 1 "A" 50 2 demoOngoing
      (by decide)).2 demoStationA (by decide) (by decide)⟩

/-- C7 counterexample: at the demo entry state — existing ongoing journey,
valid station, ample balance — the entry denial is the generic catch-all
`"System error"` response, with no AlreadyOngoing reason code and no origin
of the existing trip, falsifying "never a generic system-fault response". -/
theorem C7_counterexample :
    automated_journey_entry demoStEntry 1 "A" 50 2 =
      (demoStEntry, .deny "System error") := by
  rw [automated_journey_entry,
    show get_station_by_code demoStEntry.stations "A" = some demoStationA from by decide]
  simp only [if_neg (show ¬ get_balance demoStEntry.wallets 1 < 20 from by decide),
    show start_journey demoStEntry.journeys 1 "A" 50 2 =
      .error "User has ongoing journey. Must exit first." from by
        rw [start_journey, show get_ongoing_journey demoStEntry.journeys 1 =
          some demoOngoing from by decide]]

/-- A completed demo journey of user 1 with exit time 100. -/
def demoCompleted1 : JourneyRec :=
  { journey_id := 10, user_id := 1, entry_station_code := "A", entry_time := 0,
    exit_station_code := some "B", exit_time := some 100,
    journey_duration_minutes := some 1, fare_details := none,
    status := .completed, max_journey_time := 14400, is_active := true }

/-- A completed demo journey of user 1 with exit time 200. -/
def demoCompleted2 : JourneyRec :=
  { journey_id := 11, user_id := 1, entry_station_code := "B", entry_time := 50,
    exit_station_code := some "A", exit_time := some 200,
    journey_duration_minutes := some 2, fare_details := none,
    status := .completed, max_journey_time := 14450, is_active := true }

/-- Witness for C10 at a concrete store holding an ongoing and two
completed journeys. -/
theorem C10_history_completed_sorted_paginated_witness :
    demoCompleted2.user_id = 1 ∧ demoCompleted2.status = JStatus.completed ∧
    demoCompleted2.status ≠ JStatus.ongoing ∧
    demoCompleted2.status ≠ JStatus.emergency_cancelled ∧
    demoCompleted2.is_active = true ∧
    demoCompleted2 ∈ [demoOngoing, demoCompleted1, demoCompleted2] :=
  (C10_history_completed_sorted_paginated
      [demoOngoing, demoCompleted1, demoCompleted2] 1 0 50).1
    demoCompleted2 (by decide)
